import Mathlib

/-!
# Verification of the `ami` python backend inference/training orchestration

Shallow embedding of `src/python_backend/main.py` (the `/detect_emotion` and
`/predict_combined` endpoints) and `src/python_backend/train/train.py`
(`train_and_evaluate`).

External collaborators (OpenCV, `base64`, DeepFace, scikit-learn, joblib) are
modelled as oracles: each external call is a field of an environment record
holding the value that the call would produce (or a marker that it raised).
The definitions below follow the Python control flow line by line; line
numbers in comments refer to the source files.
-/

namespace Ami

/-- A face bounding box as returned by `cv2.CascadeClassifier.detectMultiScale`
(`main.py` line 79): `(x, y, w, h)`. -/
structure Face where
  x : Nat
  y : Nat
  w : Nat
  h : Nat
deriving DecidableEq, Repr

/-- One element of the list returned by `DeepFace.analyze` in `/detect_emotion`
(`main.py` lines 102-107): a dict with a `dominant_emotion` string and an
`emotion` dict mapping emotion names to percentage scores. -/
structure EmotionData where
  dominant_emotion : String
  scores : List (String × ℚ)
deriving DecidableEq, Repr

/-- Outcome of the `DeepFace.analyze` call in `/detect_emotion`
(`main.py` line 102): it either raises, or returns a result list. -/
inductive DFOutcome where
  | raises
  | returns (rs : List EmotionData)
deriving DecidableEq, Repr

/-- Python dict lookup `d[k]` / `k in d`, on a dict modelled as an association
list: first binding of the key, if any. -/
def lookupScore (scores : List (String × ℚ)) (k : String) : Option ℚ :=
  (scores.find? (fun p => p.1 == k)).map Prod.snd

/-- `map_deepface_emotion` (`main.py` lines 46-51): returns the DeepFace label
lower-cased. -/
def map_deepface_emotion (deepface_emotion : String) : String :=
  deepface_emotion.toLower

/-- `max(faces, key=lambda f: f[2] * f[3])` (`main.py` line 95) on the nonempty
list `f :: fs`: Python's `max` keeps the current best and replaces it only when
a later item's key is strictly greater, so it returns the first face of maximal
area `w * h`. -/
def selectedFace (f : Face) (fs : List Face) : Face :=
  fs.foldl (fun best g => if g.w * g.h > best.w * best.h then g else best) f

/-- Environment of external-call results for one `/detect_emotion` request. -/
structure DetectEnv where
  /-- whether `base64.b64decode(input_data.frame)` succeeds (line 63). -/
  b64ok : Bool
  /-- whether `cv2.imdecode` returns a frame rather than `None` (line 69). -/
  imdecodeOk : Bool
  /-- the boxes returned by `face_cascade.detectMultiScale` (line 79). -/
  faces : List Face
  /-- result of `DeepFace.analyze` on the chosen face region (line 102). -/
  analyze : Face → DFOutcome

/-- The JSON body `{emotion, confidence, face_detected}` returned by
`/detect_emotion`. -/
structure DetectResponse where
  emotion : String
  confidence : ℚ
  face_detected : Bool
deriving DecidableEq, Repr

/-- Observable outcome of one `/detect_emotion` request: an `HTTPException`
with a status code, a structured JSON body, or — when the Python function
falls off the end without a `return` statement — a `None` body. -/
inductive DetectResult where
  | httpError (status : Nat)
  | ok (r : DetectResponse)
  | noneBody
deriving DecidableEq, Repr

/-- `detect_emotion` (`main.py` lines 52-131).

Control flow mirrored from the source:
* line 63: Base64 decode failure raises `HTTPException(400)` — but that raise
  sits inside the outer `try` of line 58, whose only handler is the
  `except Exception` at lines 129-131; `HTTPException` subclasses `Exception`
  and `detect_emotion`, unlike `predict_combined`, has no
  `except HTTPException: raise`, so the handler catches the 400 and re-raises
  `HTTPException(500)`: the request surfaces with status 500;
* lines 69-73: `cv2.imdecode` returning `None` raises `HTTPException(400)`,
  likewise caught at line 129 and re-raised as status 500;
* lines 86-92: zero faces returns `{"neutral", 0.0, False}`;
* line 95: the largest face is selected and analyzed;
* lines 120-127: any exception in the analyze block returns
  `{"neutral", 0.0, True}` (this includes a `KeyError` from the dict lookup
  `emotion_data['emotion'][deepface_emotion]` on line 107);
* lines 104-119: a nonempty result list produces the mapped emotion with
  confidence `min(1.0, score / 100.0)`;
* an empty (falsy) result list matches no branch: the function body ends with
  no `return`, so Python returns `None`. -/
def detect_emotion (env : DetectEnv) : DetectResult :=
  if !env.b64ok then .httpError 500
  else if !env.imdecodeOk then .httpError 500
  else
    match env.faces with
    | [] => .ok ⟨"neutral", 0, false⟩
    | f :: fs =>
      match env.analyze (selectedFace f fs) with
      | .raises => .ok ⟨"neutral", 0, true⟩
      | .returns [] => .noneBody
      | .returns (emotion_data :: _) =>
        match lookupScore emotion_data.scores emotion_data.dominant_emotion with
        | none => .ok ⟨"neutral", 0, true⟩
        | some c =>
          .ok ⟨map_deepface_emotion emotion_data.dominant_emotion,
               min 1 (c / 100), true⟩

/-! ## `/predict_combined` (`main.py` lines 197-295) -/

/-- The pipeline dict saved by `train_and_evaluate` (`train.py` line 151) and
loaded by `load_classifier_pipeline` (`main.py` line 186). `predict_combined`
reads its keys with `dict.get`, so each key is modelled as optional; `S`, `M`,
`L` are the (external) types of the fitted scaler, classifier and label
encoder. -/
structure PipelineDict (S M L : Type) where
  scaler : Option S
  model : Option M
  label_encoder : Option L
  model_name : Option String
deriving DecidableEq, Repr

/-- The embedding-model name that `predict_combined` passes to
`DeepFace.represent` (`main.py` line 251): `pipeline.get('model_name', 'ArcFace')`. -/
def representModelName {S M L : Type} (p : PipelineDict S M L) : String :=
  p.model_name.getD "ArcFace"

/-- The default DeepFace embedding model used to extract training embeddings:
`train.py`'s `--model` argument defaults to `'ArcFace'` (line 162), which
`build_dataset`/`extract_embedding` pass to `DeepFace.represent` (line 65). -/
def defaultEmbeddingModel : String := "ArcFace"

/-- The dict produced by `DeepFace.analyze` in `/predict_combined`
(`main.py` lines 229-238), read with `dict.get`: optional `dominant_emotion`
and optional `emotion` score dict. -/
structure AnalyzeDict where
  dominant_emotion : Option String
  emotion : Option (List (String × ℚ))
deriving DecidableEq, Repr

/-- Outcome of the `DeepFace.analyze` call in `/predict_combined`
(`main.py` line 229): it raises, or returns a list, or returns a dict
("DeepFace may return list or dict", line 230). -/
inductive DFAnalyze where
  | raises
  | list (l : List AnalyzeDict)
  | dict (d : AnalyzeDict)
deriving DecidableEq, Repr

/-- `deepface_emotion` and `deepface_conf` computed at `main.py`
lines 228-242.

* If `analyze` raises, the `except` branch (lines 239-242) yields
  `('neutral', 0.0)`.
* A nonempty list is replaced by its first element (lines 231-232); an
  *empty* list is kept as-is, and `df_res.get(...)` on a list raises an
  `AttributeError` caught by the same `except`, also yielding
  `('neutral', 0.0)`.
* On a dict: `dominant_emotion` defaults to `'neutral'` (line 233),
  `emo_map` to `{}` (line 236), and the confidence is
  `emo_map[deepface_emotion] / 100.0` when the key is present (lines 237-238),
  else the initial `0.0` (line 235). No clamping is applied here. -/
def deepfaceFromDict (d : AnalyzeDict) : String × ℚ :=
  match lookupScore (d.emotion.getD []) (d.dominant_emotion.getD "neutral") with
  | some c => (d.dominant_emotion.getD "neutral", c / 100)
  | none => (d.dominant_emotion.getD "neutral", 0)

/-- Dispatch of `main.py` lines 228-242 over the three shapes of the
`DeepFace.analyze` result. -/
def deepfacePart : DFAnalyze → String × ℚ
  | .raises => ("neutral", 0)
  | .list [] => ("neutral", 0)
  | .list (d :: _) => deepfaceFromDict d
  | .dict d => deepfaceFromDict d

/-- Outcome of the custom-classifier branch body (`main.py` lines 249-279),
run only when a pipeline is loaded:

* `raised`: some step (`DeepFace.represent`, the embedding normalization,
  `scaler.transform`, `predict_proba`/`argmax`/`inverse_transform`/`max`, or
  `predict`/`inverse_transform`) raised. Inspection of lines 269-278 shows
  that in every such case the exception fires before `custom_label` or
  `custom_conf` is assigned, so both keep their initial values
  (`None`, `0.0`) and `face_detected` stays `False` (lines 245-247, 280-281).
* `probaDone p ps label`: the model has `predict_proba` (line 269) and the
  branch completed with probability row `p :: ps` (nonempty: `np.argmax` on an
  empty row would raise) and decoded label `label`; `custom_conf` is
  `np.max(probs)` (line 273).
* `predictDone label`: the model has no `predict_proba`; `predict` and
  `inverse_transform` completed with label `label`, and `custom_conf` is the
  fallback `1.0` (lines 275-278). -/
inductive CustomOutcome where
  | raised
  | probaDone (p : ℚ) (ps : List ℚ) (label : String)
  | predictDone (label : String)
deriving DecidableEq, Repr

/-- `np.max` over the nonempty row `p :: ps` (`main.py` line 273). -/
def rowMax (p : ℚ) (ps : List ℚ) : ℚ :=
  ps.foldl max p

/-- `(custom_label, custom_conf, face_detected)` after `main.py`
lines 244-281, given that a pipeline is present. -/
def runCustomBranch : CustomOutcome → Option String × ℚ × Bool
  | .raised => (none, 0, false)
  | .probaDone p ps label => (some label, rowMax p ps, true)
  | .predictDone label => (some label, 1, true)

/-- Environment of external-call results for one `/predict_combined`
request. -/
structure CombinedEnv (S M L : Type) where
  /-- the pipeline returned by `load_classifier_pipeline()` (line 206):
  `None` when the file is missing, `joblib` is unavailable, or loading
  failed (lines 176-194). -/
  pipeline : Option (PipelineDict S M L)
  /-- whether `base64.b64decode` succeeds (line 210). -/
  b64ok : Bool
  /-- whether `cv2.imdecode` returns a frame rather than `None` (line 216). -/
  imdecodeOk : Bool
  /-- whether `cv2.imwrite` to the temporary file succeeds (line 223). -/
  imwriteOk : Bool
  /-- result of `DeepFace.analyze` on the temporary file (line 229). -/
  analyze : DFAnalyze
  /-- outcome of the custom-classifier branch, as a function of the
  `model_name` string passed to `DeepFace.represent` (line 251). -/
  custom : String → CustomOutcome

/-- The JSON body returned by `/predict_combined` (`main.py` lines 283-289). -/
structure CombinedResponse where
  custom_label : Option String
  custom_confidence : ℚ
  deepface_emotion : String
  deepface_confidence : ℚ
  face_detected : Bool
deriving DecidableEq, Repr

/-- Observable outcome of one `/predict_combined` request. -/
inductive CombinedResult where
  | httpError (status : Nat)
  | ok (r : CombinedResponse)
deriving DecidableEq, Repr

/-- `predict_combined` (`main.py` lines 197-295).

* lines 209-213: Base64 decode failure raises `HTTPException(400)`; unlike
  `detect_emotion`, this endpoint has `except HTTPException: raise` at
  lines 291-292 before its generic handler, so the 400 propagates unchanged;
* lines 216-218: `cv2.imdecode` returning `None` raises `HTTPException(400)`,
  propagated unchanged for the same reason;
* lines 223-225: `cv2.imwrite` failure raises `HTTPException(500)`;
* lines 228-242: DeepFace emotion and confidence (`deepfacePart`);
* lines 244-281: the custom branch runs only when a pipeline is loaded,
  with `custom_label = None`, `custom_conf = 0.0`, `face_detected = False`
  otherwise (lines 245-247);
* lines 283-289: the five-field JSON response. -/
def predict_combined {S M L : Type} (env : CombinedEnv S M L) : CombinedResult :=
  if !env.b64ok then .httpError 400
  else if !env.imdecodeOk then .httpError 400
  else if !env.imwriteOk then .httpError 500
  else
    let df := deepfacePart env.analyze
    match env.pipeline with
    | none => .ok ⟨none, 0, df.1, df.2, false⟩
    | some p =>
      let c := runCustomBranch (env.custom (representModelName p))
      .ok ⟨c.1, c.2.1, df.1, df.2, c.2.2⟩

/-! ## `train_and_evaluate` (`train.py` lines 103-155) -/

/-- The `test_size` argument of the `train_test_split` call at `train.py`
line 107: `0.2`, i.e. a 20% holdout and an 80% training part. -/
def trainTestSplitTestSize : ℚ := 2 / 10

/-- The candidate keys of the `models` dict (`train.py` lines 113-129), in
insertion order: `logreg`, `svm`, `rf`, `lgb` (only when LightGBM imported),
`mlp`. -/
def candidateNames (hasLgb : Bool) : List String :=
  if hasLgb then ["logreg", "svm", "rf", "lgb", "mlp"]
  else ["logreg", "svm", "rf", "mlp"]

/-- Environment of external-call results for one `train_and_evaluate` run.
`S`, `M`, `L` are the external types of the fitted scaler, a fitted
classifier, and the fitted label encoder. -/
structure TrainEnv (S M L : Type) where
  /-- the `LabelEncoder` fitted at lines 104-105. -/
  le : L
  /-- the `StandardScaler` fitted at lines 109-110. -/
  scaler : S
  /-- whether `lightgbm` imported successfully (lines 35-39), adding the
  `lgb` candidate (lines 125-126). -/
  hasLgb : Bool
  /-- result of `model.fit` / `model.predict` / `accuracy_score` for each
  candidate key (lines 132-143): `none` when training raised (the
  `except` at line 142 drops the candidate), otherwise the fitted model
  and its holdout accuracy. -/
  fit : String → Option (M × ℚ)

/-- The `results` dict after the training loop (`train.py` lines 131-143):
for each candidate, in insertion order, the fitted model and its holdout
accuracy when training succeeded; failed candidates are skipped. -/
def trainResults {S M L : Type} (env : TrainEnv S M L) :
    List (String × M × ℚ) :=
  (candidateNames env.hasLgb).filterMap
    (fun n => (env.fit n).map (fun r => (n, r)))

/-- `max(results.keys(), key=lambda k: results[k][0])` (`train.py` line 146)
on the nonempty results `r :: rest`: Python's `max` returns the first key of
maximal accuracy. -/
def pickBest {M : Type} (r : Prod String (Prod M ℚ))
    (rest : List (Prod String (Prod M ℚ))) : Prod String (Prod M ℚ) :=
  rest.foldl (fun best c => if c.2.2 > best.2.2 then c else best) r

/-- `train_and_evaluate` (`train.py` lines 103-155): when at least one
candidate trained, saves the pipeline dict
`{'scaler': scaler, 'model': best_model, 'label_encoder': le,
'model_name': best_name}` (line 151) via `joblib.dump`; otherwise saves
nothing (lines 154-155). Returns the saved pipeline, `none` when nothing
was saved. -/
def train_and_evaluate {S M L : Type} (env : TrainEnv S M L) :
    Option (PipelineDict S M L) :=
  match trainResults env with
  | [] => none
  | r :: rest =>
    let best := pickBest r rest
    some ⟨some env.scaler, some best.2.1, some env.le, some best.1⟩

/-! ## Boundedness hypotheses on the external models

The claims about confidence ranges are proved under hypotheses on the
external oracles: DeepFace per-emotion scores are percentages in `[0, 100]`,
and the probabilities returned by the classifier model via `predict_proba`
lie in `[0, 1]` (the standard scikit-learn contract). -/

/-- Every per-emotion score of the dict lies in `[0, 100]`. -/
def scoresBounded (l : List (String × ℚ)) : Prop :=
  ∀ q ∈ l, 0 ≤ q.2 ∧ q.2 ≤ 100

/-- Every score of every dict the `/detect_emotion` analyze call returns lies
in `[0, 100]`. -/
def dfOutcomeBounded : DFOutcome → Prop
  | .raises => True
  | .returns rs => ∀ d ∈ rs, scoresBounded d.scores

/-- Every score of the emotion dict, when present, lies in `[0, 100]`. -/
def analyzeDictBounded (d : AnalyzeDict) : Prop :=
  ∀ l, d.emotion = some l → scoresBounded l

/-- Every score of every dict the `/predict_combined` analyze call returns
lies in `[0, 100]`. -/
def dfAnalyzeBounded : DFAnalyze → Prop
  | .raises => True
  | .list l => ∀ d ∈ l, analyzeDictBounded d
  | .dict d => analyzeDictBounded d

/-- The probability row returned by `predict_proba`, when the custom branch
took that path, has all entries in `[0, 1]`. -/
def probaBounded : CustomOutcome → Prop
  | .probaDone p ps _ => (0 ≤ p ∧ p ≤ 1) ∧ ∀ q ∈ ps, 0 ≤ q ∧ q ≤ 1
  | _ => True

/-! ## Concrete environments used to evaluate the code at specific inputs -/

/-- A concrete `/detect_emotion` environment: valid frame, one detected face,
and `DeepFace.analyze` succeeding with an empty result list. -/
def envEmptyAnalyze : DetectEnv :=
  ⟨true, true, [⟨0, 0, 30, 30⟩], fun _ => .returns []⟩

/-- A concrete training environment in which only the `logreg` candidate
trains successfully, with holdout accuracy `9/10`. -/
def envLogregOnly : TrainEnv Unit Nat Unit :=
  ⟨(), (), false, fun n => if n = "logreg" then some (0, 9 / 10) else none⟩

/-- A concrete training environment without LightGBM in which `logreg`, `svm`
and `mlp` train with holdout accuracies `7/10`, `9/10` and `9/10`, while `rf`
raises during training. -/
def envThreeCandidates : TrainEnv Unit Nat Unit :=
  ⟨(), (), false, fun n =>
    if n = "logreg" then some (1, 7 / 10)
    else if n = "svm" then some (2, 9 / 10)
    else if n = "mlp" then some (3, 9 / 10)
    else none⟩

/-! ## Helper lemmas

Python `max(l, key=key)` is the fold that keeps the current best and replaces
it only on a strictly greater key. The two lemmas below give membership and
maximality of that fold; they are shared by the face-selection and the
best-model-selection proofs. -/

lemma foldl_pick_mem {α β : Type} [LinearOrder β] (key : α → β)
    (r : α) (l : List α) :
    l.foldl (fun best c => if key c > key best then c else best) r ∈ r :: l := by
  induction l generalizing r with
  | nil => exact List.mem_singleton.mpr rfl
  | cons a as ih =>
    have h1 := ih (if key a > key r then a else r)
    have h2 :
        (a :: as).foldl (fun best c => if key c > key best then c else best) r =
          as.foldl (fun best c => if key c > key best then c else best)
            (if key a > key r then a else r) := rfl
    rw [h2]
    rcases List.mem_cons.mp h1 with h | h
    · rw [h]
      split
      · exact List.mem_cons_of_mem _ (List.mem_cons_self _ _)
      · exact List.mem_cons_self _ _
    · exact List.mem_cons_of_mem _ (List.mem_cons_of_mem _ h)

lemma foldl_pick_max {α β : Type} [LinearOrder β] (key : α → β)
    (r : α) (l : List α) :
    ∀ c ∈ r :: l,
      key c ≤ key (l.foldl (fun best c => if key c > key best then c else best) r) := by
  induction l generalizing r with
  | nil =>
    intro c hc
    rw [List.mem_singleton.mp hc]
    exact le_of_eq rfl
  | cons a as ih =>
    intro c hc
    have hstep :
        (a :: as).foldl (fun best c => if key c > key best then c else best) r =
          as.foldl (fun best c => if key c > key best then c else best)
            (if key a > key r then a else r) := rfl
    rw [hstep]
    have hr : key r ≤ key (if key a > key r then a else r) := by
      split
      · exact le_of_lt (by assumption)
      · exact le_refl _
    have ha : key a ≤ key (if key a > key r then a else r) := by
      split
      · exact le_refl _
      · exact le_of_not_lt (by assumption)
    have hhead := ih (if key a > key r then a else r)
        (if key a > key r then a else r) (List.mem_cons_self _ _)
    rcases List.mem_cons.mp hc with rfl | h
    · exact le_trans hr hhead
    · rcases List.mem_cons.mp h with rfl | h
      · exact le_trans ha hhead
      · exact ih _ c (List.mem_cons_of_mem _ h)

lemma selectedFace_eq_foldl (f : Face) (fs : List Face) :
    selectedFace f fs =
      fs.foldl
        (fun best c =>
          if (fun g : Face => g.w * g.h) c > (fun g : Face => g.w * g.h) best
          then c else best) f := rfl

lemma pickBest_eq_foldl {M : Type} (r : Prod String (Prod M ℚ))
    (rest : List (Prod String (Prod M ℚ))) :
    pickBest r rest =
      rest.foldl
        (fun best c =>
          if (fun x : Prod String (Prod M ℚ) => x.2.2) c >
             (fun x : Prod String (Prod M ℚ) => x.2.2) best
          then c else best) r := rfl

/-! ## Claim theorems -/

/-- Claim C4 (no-face fallback): when the frame decodes to a valid image and
the Haar cascade detects zero faces, `/detect_emotion` returns exactly
`{emotion: "neutral", confidence: 0.0, face_detected: false}`, and the
response does not depend on the `DeepFace.analyze` oracle at all (the model is
never invoked). -/
theorem C4_no_face_fallback (env : DetectEnv)
    (hb : env.b64ok = true) (hi : env.imdecodeOk = true)
    (hf : env.faces = []) :
    detect_emotion env = .ok ⟨"neutral", 0, false⟩ ∧
    ∀ a : Face → DFOutcome,
      detect_emotion { env with analyze := a } = .ok ⟨"neutral", 0, false⟩ := by
  constructor
  · simp [detect_emotion, hb, hi, hf]
  · intro a
    simp [detect_emotion, hb, hi, hf]

/-- Witness for C4 at a concrete environment with no detected faces. -/
theorem C4_no_face_fallback_witness :
    detect_emotion ⟨true, true, [], fun _ => .raises⟩ =
      .ok ⟨"neutral", 0, false⟩ :=
  (C4_no_face_fallback ⟨true, true, [], fun _ => .raises⟩ rfl rfl rfl).1

/-- Claim C5 (analysis-failure fallback): when a face is detected but
`DeepFace.analyze` raises, `/detect_emotion` returns the successful response
`{emotion: "neutral", confidence: 0.0, face_detected: true}` rather than an
HTTP error. -/
theorem C5_analysis_failure_fallback (env : DetectEnv) (f : Face)
    (fs : List Face)
    (hb : env.b64ok = true) (hi : env.imdecodeOk = true)
    (hf : env.faces = f :: fs)
    (ha : env.analyze (selectedFace f fs) = .raises) :
    detect_emotion env = .ok ⟨"neutral", 0, true⟩ := by
  simp [detect_emotion, hb, hi, hf, ha]

/-- Witness for C5 at a concrete environment whose analyze call raises. -/
theorem C5_analysis_failure_fallback_witness :
    detect_emotion ⟨true, true, [⟨0, 0, 30, 30⟩], fun _ => .raises⟩ =
      .ok ⟨"neutral", 0, true⟩ :=
  C5_analysis_failure_fallback ⟨true, true, [⟨0, 0, 30, 30⟩], fun _ => .raises⟩
    ⟨0, 0, 30, 30⟩ [] rfl rfl rfl rfl

/-- Claim C7 (invalid-input rejection), evaluated at the failing inputs:
on an invalid-Base64 or undecodable frame, `/detect_emotion` surfaces with
status 500, not the claimed 400 — its inner `raise HTTPException(400)`
(`main.py` lines 66 and 73) is caught by the outer `except Exception`
(lines 129-131), which re-raises `HTTPException(500)`; `detect_emotion` has
no `except HTTPException: raise` guard. `/predict_combined` does have that
guard (lines 291-292), so only it rejects invalid input with status 400 as
the claim states. -/
theorem C7_detect_invalid_input_returns_500 :
    detect_emotion ⟨false, true, [], fun _ => .raises⟩ = .httpError 500 ∧
    detect_emotion ⟨true, false, [], fun _ => .raises⟩ = .httpError 500 ∧
    detect_emotion ⟨false, true, [], fun _ => .raises⟩ ≠ .httpError 400 ∧
    detect_emotion ⟨true, false, [], fun _ => .raises⟩ ≠ .httpError 400 ∧
    predict_combined (S := Unit) (M := Unit) (L := Unit)
      ⟨none, false, true, true, .raises, fun _ => .raised⟩ = .httpError 400 ∧
    predict_combined (S := Unit) (M := Unit) (L := Unit)
      ⟨none, true, false, true, .raises, fun _ => .raised⟩ = .httpError 400 := by
  refine ⟨rfl, rfl, ?_, ?_, rfl, rfl⟩
  · intro h
    rw [show detect_emotion ⟨false, true, [], fun _ => .raises⟩ =
      .httpError 500 from rfl] at h
    simp at h
  · intro h
    rw [show detect_emotion ⟨true, false, [], fun _ => .raises⟩ =
      .httpError 500 from rfl] at h
    simp at h

/-- Claim C9 (largest-face selection): the face passed to emotion analysis —
`selectedFace f fs`, applied by `detect_emotion` to the detected list
`f :: fs` — is one of the detected faces and has maximal bounding-box area
`w * h` among them. -/
theorem C9_largest_face_selected (f : Face) (fs : List Face) :
    selectedFace f fs ∈ f :: fs ∧
    ∀ g ∈ f :: fs, g.w * g.h ≤ (selectedFace f fs).w * (selectedFace f fs).h := by
  constructor
  · rw [selectedFace_eq_foldl]
    exact foldl_pick_mem (fun g : Face => g.w * g.h) f fs
  · intro g hg
    rw [selectedFace_eq_foldl]
    exact foldl_pick_max (fun g : Face => g.w * g.h) f fs g hg

/-- Witness for C9 on a concrete two-face list: the second, larger face is
selected. -/
theorem C9_largest_face_selected_witness :
    selectedFace ⟨0, 0, 10, 10⟩ [⟨5, 5, 20, 20⟩] ∈
      [(⟨0, 0, 10, 10⟩ : Face), ⟨5, 5, 20, 20⟩] ∧
    (⟨5, 5, 20, 20⟩ : Face).w * (⟨5, 5, 20, 20⟩ : Face).h ≤
      (selectedFace ⟨0, 0, 10, 10⟩ [⟨5, 5, 20, 20⟩]).w *
        (selectedFace ⟨0, 0, 10, 10⟩ [⟨5, 5, 20, 20⟩]).h :=
  ⟨(C9_largest_face_selected ⟨0, 0, 10, 10⟩ [⟨5, 5, 20, 20⟩]).1,
   (C9_largest_face_selected ⟨0, 0, 10, 10⟩ [⟨5, 5, 20, 20⟩]).2
     ⟨5, 5, 20, 20⟩ (List.mem_cons_of_mem _ (List.mem_cons_self _ _))⟩

/-- Claim C2 (structured result totality), evaluated at the failing input:
when the frame is valid, a face is detected, and `DeepFace.analyze` succeeds
but returns an empty result list, `detect_emotion` neither raises an
`HTTPException` nor returns the three-field object — the
`if result and len(result) > 0` block at `main.py` line 104 has no `else`
branch, the `except` at line 120 does not fire, and the function falls off
the end, returning a `None` body. -/
theorem C2_empty_result_returns_none_body :
    detect_emotion envEmptyAnalyze = .noneBody ∧
    (∀ r : DetectResponse, detect_emotion envEmptyAnalyze ≠ .ok r) ∧
    (∀ s : Nat, detect_emotion envEmptyAnalyze ≠ .httpError s) := by
  refine ⟨rfl, ?_, ?_⟩
  · intro r h
    rw [show detect_emotion envEmptyAnalyze = .noneBody from rfl] at h
    exact DetectResult.noConfusion h
  · intro s h
    rw [show detect_emotion envEmptyAnalyze = .noneBody from rfl] at h
    exact DetectResult.noConfusion h

/-- Claim C1 (train/serve embedding contract), refuted on the code: the
`model_name` key that `train_and_evaluate` saves (`train.py` line 151) holds
`best_name`, the key of the winning *classifier* (`logreg`, `svm`, `rf`,
`lgb` or `mlp`), never the embedding-model name used to extract the training
embeddings (`ArcFace` by default — that name is never passed to
`train_and_evaluate` at all). `predict_combined` then forwards this value
via `pipeline.get('model_name', 'ArcFace')` to `DeepFace.represent` as the
embedding model name (`main.py` line 251). Evaluated at a run where `logreg`
wins: the name passed to `DeepFace.represent` is `logreg`, not the embedding
model `ArcFace`. In general, for every training run that saves a pipeline,
the saved `model_name` is one of the classifier keys, and no classifier key
equals `ArcFace`. -/
theorem C1_model_name_is_classifier_key_not_embedding_model :
    (∃ p, train_and_evaluate envLogregOnly = some p ∧
      representModelName p = "logreg" ∧
      representModelName p ≠ defaultEmbeddingModel) ∧
    (∀ (S M L : Type) (env : TrainEnv S M L) (p : PipelineDict S M L),
      train_and_evaluate env = some p →
        (∃ n, p.model_name = some n ∧ n ∈ candidateNames env.hasLgb) ∧
        representModelName p ≠ defaultEmbeddingModel) := by
  constructor
  · refine ⟨⟨some (), some 0, some (), some "logreg"⟩, ?_, rfl, ?_⟩
    · rfl
    · intro h
      exact absurd h (by decide)
  · intro S M L env p hp
    unfold train_and_evaluate at hp
    rcases hres : trainResults env with _ | ⟨r, rest⟩
    · rw [hres] at hp
      exact absurd hp (Option.noConfusion)
    · rw [hres] at hp
      simp only [Option.some.injEq] at hp
      have hmem : pickBest r rest ∈ r :: rest := by
        rw [pickBest_eq_foldl]
        exact foldl_pick_mem _ r rest
      rw [← hres] at hmem
      have hname : (pickBest r rest).1 ∈ candidateNames env.hasLgb := by
        have := List.mem_filterMap.mp hmem
        rcases this with ⟨n, hn, heq⟩
        rcases henv : env.fit n with _ | v
        · rw [henv] at heq
          exact absurd heq (by simp)
        · rw [henv] at heq
          simp only [Option.map_some', Option.some.injEq] at heq
          rw [← heq]
          exact hn
      have hpm : p.model_name = some (pickBest r rest).1 := by
        rw [← hp]
      refine ⟨⟨(pickBest r rest).1, hpm, hname⟩, ?_⟩
      intro hcontra
      rw [representModelName, hpm] at hcontra
      simp only [Option.getD_some] at hcontra
      rw [hcontra] at hname
      revert hname
      unfold defaultEmbeddingModel candidateNames
      split <;> decide

/-- Claim C6 (optional classifier degradation): when no trained classifier
pipeline is available (`load_classifier_pipeline` returned `None`: file
missing, `joblib` unavailable, or load failed) and the frame decodes to a
valid image, `/predict_combined` still returns a successful response carrying
the DeepFace emotion and confidence, with `custom_label = None`,
`custom_confidence = 0.0` and `face_detected = False`. -/
theorem C6_missing_pipeline_degradation {S M L : Type}
    (env : CombinedEnv S M L)
    (hp : env.pipeline = none) (hb : env.b64ok = true)
    (hi : env.imdecodeOk = true) (hw : env.imwriteOk = true) :
    predict_combined env =
      .ok ⟨none, 0, (deepfacePart env.analyze).1,
           (deepfacePart env.analyze).2, false⟩ := by
  simp [predict_combined, hp, hb, hi, hw]

/-- Witness for C6 at a concrete environment with no pipeline and a
successful DeepFace analysis. -/
theorem C6_missing_pipeline_degradation_witness :
    predict_combined (S := Unit) (M := Unit) (L := Unit)
      ⟨none, true, true, true,
       .dict ⟨some "happy", some [("happy", 80)]⟩, fun _ => .raised⟩ =
      .ok ⟨none, 0, "happy", 80 / 100, false⟩ :=
  C6_missing_pipeline_degradation
    ⟨none, true, true, true,
     .dict ⟨some "happy", some [("happy", 80)]⟩, fun _ => .raised⟩
    rfl rfl rfl rfl

/-- Claim C10 (face_detected semantics in `/predict_combined`): in every
successful response, `face_detected` is `true` exactly when a pipeline was
loaded and the custom-classifier branch completed without an exception; it is
`false` whenever the pipeline is absent or the branch raised, regardless of
the DeepFace analysis outcome. -/
theorem C10_face_detected_iff_custom_completed {S M L : Type}
    (env : CombinedEnv S M L) (r : CombinedResponse)
    (h : predict_combined env = .ok r) :
    r.face_detected = true ↔
      ∃ p, env.pipeline = some p ∧
        env.custom (representModelName p) ≠ .raised := by
  unfold predict_combined at h
  rcases hb : env.b64ok with _ | _ <;> rw [hb] at h
  · exact absurd h (by simp)
  rcases hi : env.imdecodeOk with _ | _ <;> rw [hi] at h
  · exact absurd h (by simp)
  rcases hw : env.imwriteOk with _ | _ <;> rw [hw] at h
  · exact absurd h (by simp)
  simp only [Bool.not_true, Bool.false_eq_true, if_false] at h
  rcases hp : env.pipeline with _ | p <;> rw [hp] at h
  · simp only [CombinedResult.ok.injEq] at h
    rw [← h]
    simp
  · rcases hc : env.custom (representModelName p) with _ | _ | _ <;>
      simp only [hc, runCustomBranch, CombinedResult.ok.injEq] at h <;>
      rw [← h] <;> simp [hc]

/-- Witness for C10 at a concrete environment whose custom branch completed
via `predict_proba`: the returned `face_detected` is `true` and the theorem
instantiates to the expected equivalence. -/
theorem C10_face_detected_iff_custom_completed_witness :
    (true : Bool) = true ↔
      ∃ p : PipelineDict Unit Unit Unit,
        (some ⟨some (), some (), some (), some "logreg"⟩ :
            Option (PipelineDict Unit Unit Unit)) = some p ∧
        (fun _ : String => CustomOutcome.probaDone (1 / 2) [] "laughing")
            (representModelName p) ≠ .raised :=
  C10_face_detected_iff_custom_completed (S := Unit) (M := Unit) (L := Unit)
    ⟨some ⟨some (), some (), some (), some "logreg"⟩, true, true, true,
     .dict ⟨some "happy", some [("happy", 80)]⟩,
     fun _ => .probaDone (1 / 2) [] "laughing"⟩
    ⟨some "laughing", 1 / 2, "happy", 80 / 100, true⟩ rfl

lemma lookupScore_bounded {l : List (String × ℚ)} {k : String} {c : ℚ}
    (hl : scoresBounded l) (h : lookupScore l k = some c) :
    0 ≤ c ∧ c ≤ 100 := by
  unfold lookupScore at h
  rcases Option.map_eq_some'.mp h with ⟨q, hq, hqc⟩
  have hmem := List.mem_of_find?_eq_some hq
  rw [← hqc]
  exact hl q hmem

lemma rowMax_bounds (p : ℚ) (ps : List ℚ) (h0 : 0 ≤ p ∧ p ≤ 1)
    (hps : ∀ q ∈ ps, 0 ≤ q ∧ q ≤ 1) :
    0 ≤ rowMax p ps ∧ rowMax p ps ≤ 1 := by
  induction ps generalizing p with
  | nil => exact h0
  | cons a as ih =>
    have ha := hps a (List.mem_cons_self _ _)
    have hstep : rowMax p (a :: as) = rowMax (max p a) as := rfl
    rw [hstep]
    exact ih (max p a)
      ⟨le_max_of_le_left h0.1, max_le h0.2 ha.2⟩
      (fun q hq => hps q (List.mem_cons_of_mem _ hq))

lemma deepfaceFromDict_bounded (d : AnalyzeDict)
    (hd : analyzeDictBounded d) :
    0 ≤ (deepfaceFromDict d).2 ∧ (deepfaceFromDict d).2 ≤ 1 := by
  unfold deepfaceFromDict
  rcases he : d.emotion with _ | l
  · norm_num [lookupScore]
  · simp only [Option.getD_some]
    have hl := hd l he
    rcases hls : lookupScore l (d.dominant_emotion.getD "neutral") with _ | c
    · norm_num
    · have hc := lookupScore_bounded hl hls
      refine ⟨?_, ?_⟩
      · show (0 : ℚ) ≤ c / 100
        exact div_nonneg hc.1 (by norm_num)
      · show (c : ℚ) / 100 ≤ 1
        rw [div_le_one (by norm_num)]
        linarith [hc.2]

lemma deepfacePart_bounded (a : DFAnalyze) (ha : dfAnalyzeBounded a) :
    0 ≤ (deepfacePart a).2 ∧ (deepfacePart a).2 ≤ 1 := by
  rcases a with _ | l | d
  · norm_num [deepfacePart]
  · rcases l with _ | ⟨d, rest⟩
    · norm_num [deepfacePart]
    · have hd : analyzeDictBounded d := ha d (List.mem_cons_self _ _)
      exact deepfaceFromDict_bounded d hd
  · exact deepfaceFromDict_bounded d ha

/-- Claim C3 (bounded confidence): under the hypotheses that every
per-emotion score reported by DeepFace lies in `[0, 100]` and that the
external classifier, when it exposes `predict_proba`, returns probabilities
in `[0, 1]`, every confidence in a successful response lies in `[0, 1]`:
the `confidence` of `/detect_emotion` and both `deepface_confidence` and
`custom_confidence` of `/predict_combined`. -/
theorem C3_confidence_bounded {S M L : Type} (envD : DetectEnv)
    (envP : CombinedEnv S M L)
    (hD : ∀ f, dfOutcomeBounded (envD.analyze f))
    (hP : dfAnalyzeBounded envP.analyze)
    (hprob : ∀ s, probaBounded (envP.custom s)) :
    (∀ r, detect_emotion envD = .ok r →
      0 ≤ r.confidence ∧ r.confidence ≤ 1) ∧
    (∀ r, predict_combined envP = .ok r →
      (0 ≤ r.deepface_confidence ∧ r.deepface_confidence ≤ 1) ∧
      (0 ≤ r.custom_confidence ∧ r.custom_confidence ≤ 1)) := by
  obtain ⟨b64D, imdD, faces, anD⟩ := envD
  obtain ⟨pl, b64P, imdP, imw, anP, cu⟩ := envP
  constructor
  · intro r hr
    obtain ⟨rem, rconf, rfd⟩ := r
    rcases b64D with _ | _
    · exact absurd hr (by simp [detect_emotion])
    rcases imdD with _ | _
    · exact absurd hr (by simp [detect_emotion])
    rcases faces with _ | ⟨f, fs⟩
    · have hr2 : DetectResult.ok ⟨"neutral", 0, false⟩ =
          DetectResult.ok ⟨rem, rconf, rfd⟩ := hr
      injection hr2 with h
      injection h with h1 h2 h3
      subst h2
      norm_num
    · have hD2 : dfOutcomeBounded (anD (selectedFace f fs)) :=
        hD (selectedFace f fs)
      rcases han : anD (selectedFace f fs) with _ | rs
      · simp only [detect_emotion, Bool.not_true, Bool.false_eq_true,
          if_false, han] at hr
        injection hr with h
        injection h with h1 h2 h3
        subst h2
        norm_num
      · rcases rs with _ | ⟨ed, rest⟩
        · exact absurd hr (by simp [detect_emotion, han])
        · rw [han] at hD2
          have hsc : scoresBounded ed.scores := hD2 ed (List.mem_cons_self _ _)
          rcases hls : lookupScore ed.scores ed.dominant_emotion with _ | c
          · simp only [detect_emotion, Bool.not_true, Bool.false_eq_true,
              if_false, han, hls] at hr
            injection hr with h
            injection h with h1 h2 h3
            subst h2
            norm_num
          · simp only [detect_emotion, Bool.not_true, Bool.false_eq_true,
              if_false, han, hls] at hr
            injection hr with h
            injection h with h1 h2 h3
            subst h2
            have hc := lookupScore_bounded hsc hls
            constructor
            · exact le_min (by norm_num) (div_nonneg hc.1 (by norm_num))
            · exact min_le_left _ _
  · intro r hr
    rcases b64P with _ | _
    · exact absurd hr (by simp [predict_combined])
    rcases imdP with _ | _
    · exact absurd hr (by simp [predict_combined])
    rcases imw with _ | _
    · exact absurd hr (by simp [predict_combined])
    have hdf : 0 ≤ (deepfacePart anP).2 ∧ (deepfacePart anP).2 ≤ 1 :=
      deepfacePart_bounded anP hP
    rcases pl with _ | p
    · have hr2 := (show CombinedResult.ok
          ⟨none, 0, (deepfacePart anP).1, (deepfacePart anP).2, false⟩ =
          predict_combined ⟨none, true, true, true, anP, cu⟩ from rfl).trans hr
      injection hr2 with h
      rw [← h]
      exact ⟨hdf, by norm_num⟩
    · have hr2 := (show CombinedResult.ok
          ⟨(runCustomBranch (cu (representModelName p))).1,
           (runCustomBranch (cu (representModelName p))).2.1,
           (deepfacePart anP).1, (deepfacePart anP).2,
           (runCustomBranch (cu (representModelName p))).2.2⟩ =
          predict_combined ⟨some p, true, true, true, anP, cu⟩ from rfl).trans hr
      injection hr2 with h
      rw [← h]
      refine ⟨hdf, ?_⟩
      have hp2 : probaBounded (cu (representModelName p)) :=
        hprob (representModelName p)
      rcases hcu : cu (representModelName p) with _ | ⟨pq, pqs, lbl⟩ | lbl
      · show (0 : ℚ) ≤ 0 ∧ (0 : ℚ) ≤ 1
        norm_num
      · rw [hcu] at hp2
        have hp3 : (0 ≤ pq ∧ pq ≤ 1) ∧ ∀ q ∈ pqs, 0 ≤ q ∧ q ≤ 1 := hp2
        show 0 ≤ rowMax pq pqs ∧ rowMax pq pqs ≤ 1
        exact rowMax_bounds pq pqs hp3.1 hp3.2
      · show (0 : ℚ) ≤ 1 ∧ (1 : ℚ) ≤ 1
        norm_num

/-- Witness for C3 at concrete environments: a detected face with a score of
`73`, a combined request with a score of `80`, and a probability row
`[1/4, 3/5]`. -/
theorem C3_confidence_bounded_witness :
    (∀ r, detect_emotion
        ⟨true, true, [⟨0, 0, 30, 30⟩],
         fun _ => .returns [⟨"happy", [("happy", 73)]⟩]⟩ = .ok r →
      0 ≤ r.confidence ∧ r.confidence ≤ 1) ∧
    (∀ r, predict_combined (S := Unit) (M := Unit) (L := Unit)
        ⟨some ⟨some (), some (), some (), some "logreg"⟩, true, true, true,
         .dict ⟨some "sad", some [("sad", 80)]⟩,
         fun _ => .probaDone (1 / 4) [3 / 5] "laughing"⟩ = .ok r →
      (0 ≤ r.deepface_confidence ∧ r.deepface_confidence ≤ 1) ∧
      (0 ≤ r.custom_confidence ∧ r.custom_confidence ≤ 1)) :=
  C3_confidence_bounded
    ⟨true, true, [⟨0, 0, 30, 30⟩],
     fun _ => .returns [⟨"happy", [("happy", 73)]⟩]⟩
    ⟨some ⟨some (), some (), some (), some "logreg"⟩, true, true, true,
     .dict ⟨some "sad", some [("sad", 80)]⟩,
     fun _ => .probaDone (1 / 4) [3 / 5] "laughing"⟩
    (by
      intro f
      simp only [dfOutcomeBounded, scoresBounded]
      intro d hd q hq
      simp only [List.mem_singleton] at hd
      subst hd
      simp only [List.mem_singleton] at hq
      subst hq
      norm_num)
    (by
      simp only [dfAnalyzeBounded, analyzeDictBounded, scoresBounded]
      intro l hl q hq
      simp only [Option.some.injEq] at hl
      subst hl
      simp only [List.mem_singleton] at hq
      subst hq
      norm_num)
    (by
      intro s
      simp only [probaBounded]
      refine ⟨by norm_num, ?_⟩
      intro q hq
      simp only [List.mem_singleton] at hq
      subst hq
      norm_num)

/-- Claim C8 (best-model selection and save): `train_and_evaluate` splits
with `test_size = 0.2` (an 80/20 train/holdout split), attempts every
candidate on the training part (each successfully trained candidate enters
`results` with its holdout accuracy), and when at least one candidate
trained it saves exactly a pipeline of the fitted scaler, the chosen model
and the label encoder, where the chosen model is one of the trained
candidates and its holdout accuracy is maximal among them. -/
theorem C8_best_model_saved {S M L : Type} (env : TrainEnv S M L)
    (h : trainResults env ≠ []) :
    trainTestSplitTestSize = 2 / 10 ∧
    (∀ n ∈ candidateNames env.hasLgb, ∀ m a, env.fit n = some (m, a) →
      (n, m, a) ∈ trainResults env) ∧
    ∃ p, train_and_evaluate env = some p ∧
      p.scaler = some env.scaler ∧ p.label_encoder = some env.le ∧
      ∃ name model acc,
        p.model = some model ∧ p.model_name = some name ∧
        (name, model, acc) ∈ trainResults env ∧
        ∀ c ∈ trainResults env, c.2.2 ≤ acc := by
  refine ⟨rfl, ?_, ?_⟩
  · intro n hn m a hfit
    exact List.mem_filterMap.mpr ⟨n, hn, by rw [hfit]; rfl⟩
  · rcases hres : trainResults env with _ | ⟨r, rest⟩
    · exact absurd hres h
    · refine ⟨⟨some env.scaler, some (pickBest r rest).2.1, some env.le,
        some (pickBest r rest).1⟩, ?_, rfl, rfl,
        (pickBest r rest).1, (pickBest r rest).2.1, (pickBest r rest).2.2,
        rfl, rfl, ?_, ?_⟩
      · unfold train_and_evaluate
        rw [hres]
      · have hmem : pickBest r rest ∈ r :: rest := by
          rw [pickBest_eq_foldl]
          exact foldl_pick_mem _ r rest
        exact hmem
      · intro c hc
        have hmax := foldl_pick_max
          (fun x : Prod String (Prod M ℚ) => x.2.2) r rest c hc
        rw [← pickBest_eq_foldl] at hmax
        exact hmax

/-- Witness for C8 at `envThreeCandidates`: `svm` (accuracy `9/10`, the
first maximal one) is chosen over `logreg` (`7/10`) and `mlp` (`9/10`), and
the failed `rf` candidate is skipped. -/
theorem C8_best_model_saved_witness :
    trainTestSplitTestSize = 2 / 10 ∧
    (∀ n ∈ candidateNames envThreeCandidates.hasLgb, ∀ m a,
      envThreeCandidates.fit n = some (m, a) →
      (n, m, a) ∈ trainResults envThreeCandidates) ∧
    ∃ p, train_and_evaluate envThreeCandidates = some p ∧
      p.scaler = some envThreeCandidates.scaler ∧
      p.label_encoder = some envThreeCandidates.le ∧
      ∃ name model acc,
        p.model = some model ∧ p.model_name = some name ∧
        (name, model, acc) ∈ trainResults envThreeCandidates ∧
        ∀ c ∈ trainResults envThreeCandidates, c.2.2 ≤ acc :=
  C8_best_model_saved envThreeCandidates (by decide)

end Ami
